import Mathlib

/-!
# Texas Energy Dashboard — verification of the date-filtered metrics
# aggregation pipeline

A shallow embedding of the client-side data pipeline of the dashboard:
the filter state store (`DateFilterContext`), the query builders, the
zone-to-display-region mapping tables declared in each view, and the
per-view aggregation functions that turn raw API records into display
rows.  JavaScript numbers are modelled as rationals (`ℚ`), JavaScript
strings as `String`, and record objects as structures.  Each definition
mirrors one function or table of the source.
-/

namespace TexasEnergy

/-- `DateRange` from `contexts/DateFilterContext.tsx`: a pair of calendar
date strings. -/
structure DateRange where
  startDate : String
  endDate : String
deriving DecidableEq, Repr

/-! ## Filter state store (`DateFilterProvider`) -/

/-- The provider state: the committed range `dateRange` and the draft
range `tempDateRange`. -/
structure FilterState where
  dateRange : DateRange
  tempDateRange : DateRange
deriving DecidableEq, Repr

/-- The literal `initialRange` of `DateFilterProvider`. -/
def initialRange : DateRange := { startDate := "2010-06-01", endDate := "2011-01-01" }

/-- Initial provider state: both `useState` hooks are seeded with
`initialRange`. -/
def initFilterState : FilterState :=
  { dateRange := initialRange, tempDateRange := initialRange }

/-- `setTempDateRange`: writes the draft range only. -/
def setTempDateRange (s : FilterState) (r : DateRange) : FilterState :=
  { s with tempDateRange := r }

/-- `applyDateRange`: copies the draft into the committed range. -/
def applyDateRange (s : FilterState) : FilterState :=
  { s with dateRange := s.tempDateRange }

/-- The operations the context exposes to consumers. -/
inductive FilterOp where
  | setTemp (r : DateRange)
  | apply
deriving DecidableEq, Repr

/-- One step of the filter store under an exposed operation. -/
def filterStep (s : FilterState) : FilterOp → FilterState
  | .setTemp r => setTempDateRange s r
  | .apply => applyDateRange s

/-! ## Query building -/

/-- `LoadByRegionChart.fetchData` query construction: appends
`start_date`/`end_date` with day-boundary time suffixes, each only when
the corresponding field is truthy (non-empty). -/
def buildHourlyLoadParams (r : DateRange) : List (String × String) :=
  (if r.startDate ≠ "" then [("start_date", r.startDate ++ "T00:00:00")] else []) ++
  (if r.endDate ≠ "" then [("end_date", r.endDate ++ "T23:59:59")] else [])

/-! ## Zone-to-display-region tables, one per view, in source order -/

/-- `zoneToRegionMap` of `DryVsRainyChart.tsx`. -/
def zoneToRegionMapDry (z : String) : Option String :=
  if z = "north" then some "North"
  else if z = "north_c" then some "North"
  else if z = "southern" then some "South"
  else if z = "south_c" then some "South"
  else if z = "west" then some "West"
  else if z = "far_west" then some "West"
  else if z = "coast" then some "Houston"
  else if z = "east" then some "Houston"
  else none

/-- `zoneToDisplayMap` of `HeatwavesByZoneChart.tsx`. -/
def zoneToDisplayMapHeatwaves (z : String) : Option String :=
  if z = "north" then some "North"
  else if z = "north_c" then some "North"
  else if z = "southern" then some "South"
  else if z = "south_c" then some "South"
  else if z = "west" then some "West"
  else if z = "far_west" then some "West"
  else if z = "coast" then some "Houston"
  else if z = "east" then some "Houston"
  else none

/-- `zoneToRegionMap` of `ExtremeHeatLoadTable.tsx`. -/
def zoneToRegionMapExtremeHeat (z : String) : Option String :=
  if z = "north" then some "North"
  else if z = "north_c" then some "North"
  else if z = "southern" then some "South"
  else if z = "south_c" then some "South"
  else if z = "west" then some "West"
  else if z = "far_west" then some "West"
  else if z = "coast" then some "Houston"
  else if z = "east" then some "Houston"
  else none

/-- `regionToDisplayMap` of `MetricsCard`. -/
def regionToDisplayMapMetrics (z : String) : Option String :=
  if z = "coast" then some "Houston"
  else if z = "east" then some "Houston"
  else if z = "far_west" then some "West"
  else if z = "north" then some "North"
  else if z = "north_c" then some "North"
  else if z = "southern" then some "South"
  else if z = "south_c" then some "South"
  else if z = "west" then some "West"
  else none

/-- `regionToDisplayMap` of `OutlierDetectionCard` (note the extra
`ercot` key). -/
def regionToDisplayMapOutlier (z : String) : Option String :=
  if z = "coast" then some "Houston"
  else if z = "east" then some "Houston"
  else if z = "far_west" then some "West"
  else if z = "north" then some "North"
  else if z = "north_c" then some "North"
  else if z = "southern" then some "South"
  else if z = "south_c" then some "South"
  else if z = "west" then some "West"
  else if z = "ercot" then some "All"
  else none

/-! ## Static extreme-heat chart (`ExtremeHeatLoadChart.tsx`) -/

/-- The hard-coded module-level `data` array of `ExtremeHeatLoadChart`. -/
def extremeHeatLoadChartStaticData : List (String × ℚ) :=
  [("Day 1", 3400), ("Day 2", 3600), ("Day 3", 3550), ("Day 4", 3700), ("Day 5", 3650)]

/-- The series `ExtremeHeatLoadChart` hands to its line chart, as a
function of its `dateRange` prop (which the component never reads). -/
def extremeHeatLoadChartData (_dateRange : DateRange) : List (String × ℚ) :=
  extremeHeatLoadChartStaticData

/-! ## DryVsRainyChart aggregation -/

/-- One record of the `/weather/precipitation` response. -/
structure PrecipitationData where
  zone : String
  rainy_day : Bool
  avg_load_mw : ℚ
  num_days : ℚ
deriving DecidableEq, Repr

/-- One per-region accumulator of `regionData` in
`DryVsRainyChart.fetchData`. -/
structure DryRainAccum where
  dry : ℚ
  rainy : ℚ
  dryCount : ℚ
  rainyCount : ℚ
deriving DecidableEq, Repr

/-- The `regionData` object: four fixed keys in declaration order
North, South, West, Houston. -/
structure DryRainRegions where
  north : DryRainAccum
  south : DryRainAccum
  west : DryRainAccum
  houston : DryRainAccum
deriving DecidableEq, Repr

def zeroDryRainAccum : DryRainAccum := ⟨0, 0, 0, 0⟩

def initDryRainRegions : DryRainRegions :=
  ⟨zeroDryRainAccum, zeroDryRainAccum, zeroDryRainAccum, zeroDryRainAccum⟩

/-- Fold one record into the accumulator of its rainy/dry bucket. -/
def dryRainAdd (a : DryRainAccum) (item : PrecipitationData) : DryRainAccum :=
  if item.rainy_day then
    { a with rainy := a.rainy + item.avg_load_mw, rainyCount := a.rainyCount + 1 }
  else
    { a with dry := a.dry + item.avg_load_mw, dryCount := a.dryCount + 1 }

/-- `regionData[displayRegion]` update: the mapped display region picks
the field that is mutated. -/
def dryRainUpdate (acc : DryRainRegions) (rg : String) (item : PrecipitationData) :
    DryRainRegions :=
  if rg = "North" then { acc with north := dryRainAdd acc.north item }
  else if rg = "South" then { acc with south := dryRainAdd acc.south item }
  else if rg = "West" then { acc with west := dryRainAdd acc.west item }
  else if rg = "Houston" then { acc with houston := dryRainAdd acc.houston item }
  else acc

/-- The `apiData.forEach` body: skip when the zone is unmapped. -/
def dryRainStep (acc : DryRainRegions) (item : PrecipitationData) : DryRainRegions :=
  match zoneToRegionMapDry item.zone with
  | none => acc
  | some rg => dryRainUpdate acc rg item

/-- One chart row of `DryVsRainyChart`. -/
structure DryRainPoint where
  region : String
  dry : ℚ
  rainy : ℚ
deriving DecidableEq, Repr

/-- Finalize one accumulator: average with a positive-count guard. -/
def dryRainFinalize (rg : String) (a : DryRainAccum) : DryRainPoint :=
  { region := rg,
    dry := if 0 < a.dryCount then a.dry / a.dryCount else 0,
    rainy := if 0 < a.rainyCount then a.rainy / a.rainyCount else 0 }

/-- `DryVsRainyChart.fetchData` aggregation: fold all records, then emit
the four rows in `Object.entries` (insertion) order. -/
def dryVsRainyChartData (records : List PrecipitationData) : List DryRainPoint :=
  let d := records.foldl dryRainStep initDryRainRegions
  [dryRainFinalize "North" d.north, dryRainFinalize "South" d.south,
   dryRainFinalize "West" d.west, dryRainFinalize "Houston" d.houston]

/-! ## HeatwavesByZoneChart aggregation -/

/-- One record of the `/weather/heatwaves` response. -/
structure HeatwaveData where
  zone : String
  streak_start : String
  streak_end : String
  streak_days : ℚ
  avg_peak_load_mw : Option ℚ
deriving DecidableEq, Repr

/-- The `zoneCount` object: four fixed keys in declaration order. -/
structure HeatwaveCounts where
  north : ℚ
  south : ℚ
  west : ℚ
  houston : ℚ
deriving DecidableEq, Repr

def initHeatwaveCounts : HeatwaveCounts := ⟨0, 0, 0, 0⟩

/-- `zoneCount[displayZone]++` at the mapped key. -/
def heatwaveUpdate (acc : HeatwaveCounts) (rg : String) : HeatwaveCounts :=
  if rg = "North" then { acc with north := acc.north + 1 }
  else if rg = "South" then { acc with south := acc.south + 1 }
  else if rg = "West" then { acc with west := acc.west + 1 }
  else if rg = "Houston" then { acc with houston := acc.houston + 1 }
  else acc

/-- The `apiData.forEach` body: skip when the zone is unmapped. -/
def heatwaveStep (acc : HeatwaveCounts) (hw : HeatwaveData) : HeatwaveCounts :=
  match zoneToDisplayMapHeatwaves hw.zone with
  | none => acc
  | some rg => heatwaveUpdate acc rg

/-- One chart row of `HeatwavesByZoneChart`. -/
structure HeatwavePoint where
  zone : String
  heatwaves : ℚ
deriving DecidableEq, Repr

/-- `HeatwavesByZoneChart.fetchData` aggregation. -/
def heatwavesChartData (records : List HeatwaveData) : List HeatwavePoint :=
  let c := records.foldl heatwaveStep initHeatwaveCounts
  [⟨"North", c.north⟩, ⟨"South", c.south⟩, ⟨"West", c.west⟩, ⟨"Houston", c.houston⟩]

/-! ## ExtremeHeatLoadTable aggregation -/

/-- One record of the `/load/peak-load-extreme-heat` response. -/
structure ExtremeHeatData where
  zone : String
  median_peak_load_mw : ℚ
  num_extreme_heat_days : ℚ
  threshold_percentile : ℚ
  threshold_temp_f : ℚ
deriving DecidableEq, Repr

/-- Value type of the `regionMap` entries: three parallel push arrays. -/
structure ExtremeHeatLists where
  loads : List ℚ
  days : List ℚ
  temps : List ℚ
deriving DecidableEq, Repr

/-- Push the record fields onto the entry for its region; a first record
for a region creates the entry (at the end, preserving `Map` insertion
order). Unmapped zones are skipped by `extremeHeatStep`. -/
def extremeHeatInsert : List (String × ExtremeHeatLists) → String → ExtremeHeatData →
    List (String × ExtremeHeatLists)
  | [], rg, item =>
      [(rg, ⟨[item.median_peak_load_mw], [item.num_extreme_heat_days], [item.threshold_temp_f]⟩)]
  | (k, e) :: rest, rg, item =>
      if k = rg then
        (k, ⟨e.loads ++ [item.median_peak_load_mw], e.days ++ [item.num_extreme_heat_days],
             e.temps ++ [item.threshold_temp_f]⟩) :: rest
      else (k, e) :: extremeHeatInsert rest rg item

/-- The `apiData.forEach` body of `ExtremeHeatLoadTable.fetchData`. -/
def extremeHeatStep (acc : List (String × ExtremeHeatLists)) (item : ExtremeHeatData) :
    List (String × ExtremeHeatLists) :=
  match zoneToRegionMapExtremeHeat item.zone with
  | none => acc
  | some rg => extremeHeatInsert acc rg item

/-- The populated `regionMap`, in insertion order. -/
def extremeHeatGroups (records : List ExtremeHeatData) : List (String × ExtremeHeatLists) :=
  records.foldl extremeHeatStep []

/-- `Math.round`: round half toward positive infinity. -/
def jsRound (q : ℚ) : ℚ := (⌊q + 1/2⌋ : ℤ)

/-- One output row of `ExtremeHeatLoadTable`. -/
structure ExtremeHeatRow where
  region : String
  median_peak_load_mw : ℚ
  num_extreme_heat_days : ℚ
  avg_threshold_temp_f : ℚ
deriving DecidableEq, Repr

/-- Finalize one region entry: sum the loads, average (and round) the
day counts, average the temperature thresholds.  The divisions are
unguarded in the source. -/
def extremeHeatFinalize (p : String × ExtremeHeatLists) : ExtremeHeatRow :=
  { region := p.1,
    median_peak_load_mw := p.2.loads.sum,
    num_extreme_heat_days := jsRound (p.2.days.sum / (p.2.days.length : ℚ)),
    avg_threshold_temp_f := p.2.temps.sum / (p.2.temps.length : ℚ) }

/-- `ExtremeHeatLoadTable.fetchData` aggregation: finalize every
populated entry, then sort rows by region name. -/
def extremeHeatRows (records : List ExtremeHeatData) : List ExtremeHeatRow :=
  ((extremeHeatGroups records).map extremeHeatFinalize).mergeSort
    (fun a b => a.region ≤ b.region)

/-! ## LoadByRegionChart pipeline -/

/-- One record of the `/load/hourly` response. -/
structure HourlyLoadData where
  hour_end : String
  north : ℚ
  southern : ℚ
  south_c : ℚ
  west : ℚ
  north_c : ℚ
  coast : ℚ
  east : ℚ
  far_west : ℚ
deriving DecidableEq, Repr

/-- One chart point of `LoadByRegionChart`. -/
structure LoadPoint where
  hour : String
  north : ℚ
  south : ℚ
  west : ℚ
  houston : ℚ
deriving DecidableEq, Repr, Inhabited

/-- `sampleData`: keep short lists unchanged, otherwise take `maxPoints`
elements at indices `Math.floor(i * (length / maxPoints))`. -/
def sampleData (data : List LoadPoint) (maxPoints : ℕ) : List LoadPoint :=
  if data.length ≤ maxPoints then data
  else (List.range maxPoints).map
    (fun i => data.getD (i * data.length / maxPoints) default)

def MAX_CHART_POINTS : ℕ := 100

/-- `LoadByRegionChart.fetchData` transformation: map records to chart
points (the hour label comes from the external locale formatter `fmt`),
then sample down to `MAX_CHART_POINTS`. -/
def loadByRegionChartData (fmt : String → String) (records : List HourlyLoadData) :
    List LoadPoint :=
  sampleData
    (records.map (fun item =>
      { hour := fmt item.hour_end,
        north := item.north + item.north_c,
        south := item.southern + item.south_c,
        west := item.west + item.far_west,
        houston := item.coast + item.east }))
    MAX_CHART_POINTS

/-! ## MetricsCard weighted-mean aggregation -/

/-- One record of the `/forecast/metrics` response. -/
structure ForecastMetrics where
  region : String
  n : ℚ
  mse : ℚ
  mae : ℚ
  mape_pct : ℚ
  r2 : ℚ
deriving DecidableEq, Repr

/-- `regionToDisplayMap[metric.region] || metric.region`: unmapped
regions fall back to the raw identifier. -/
def metricsDisplayRegion (m : ForecastMetrics) : String :=
  (regionToDisplayMapMetrics m.region).getD m.region

/-- One entry of the `regionGroups` object. -/
structure MetricsGroup where
  totalN : ℚ
  weightedMse : ℚ
  weightedMae : ℚ
  weightedMape : ℚ
  weightedR2 : ℚ
deriving DecidableEq, Repr

def zeroMetricsGroup : MetricsGroup := ⟨0, 0, 0, 0, 0⟩

/-- Fold one record into its group. -/
def metricsAdd (g : MetricsGroup) (m : ForecastMetrics) : MetricsGroup :=
  { totalN := g.totalN + m.n,
    weightedMse := g.weightedMse + m.mse * m.n,
    weightedMae := g.weightedMae + m.mae * m.n,
    weightedMape := g.weightedMape + m.mape_pct * m.n,
    weightedR2 := g.weightedR2 + m.r2 * m.n }

/-- The `apiData.forEach` body: create the group on first sight (object
keys keep insertion order, so a fresh key goes to the end), then fold
the record in. -/
def metricsInsert : List (String × MetricsGroup) → ForecastMetrics →
    List (String × MetricsGroup)
  | [], m => [(metricsDisplayRegion m, metricsAdd zeroMetricsGroup m)]
  | (k, g) :: rest, m =>
      if k = metricsDisplayRegion m then (k, metricsAdd g m) :: rest
      else (k, g) :: metricsInsert rest m

/-- The populated `regionGroups`, in key insertion order. -/
def metricsGroups (records : List ForecastMetrics) : List (String × MetricsGroup) :=
  records.foldl metricsInsert []

/-- One output row of `MetricsCard` (without the region key). -/
structure DisplayMetrics where
  mape : ℚ
  r2 : ℚ
  mse : ℚ
  mae : ℚ
deriving DecidableEq, Repr

/-- Finalize one group: weighted means with the `totalN > 0` guard. -/
def metricsFinalize (g : MetricsGroup) : DisplayMetrics :=
  { mape := if 0 < g.totalN then g.weightedMape / g.totalN else 0,
    r2 := if 0 < g.totalN then g.weightedR2 / g.totalN else 0,
    mse := if 0 < g.totalN then g.weightedMse / g.totalN else 0,
    mae := if 0 < g.totalN then g.weightedMae / g.totalN else 0 }

/-- `MetricsCard.fetchData` aggregation (`Object.entries(regionGroups)`
mapped through the finalizer). -/
def metricsDisplay (records : List ForecastMetrics) : List (String × DisplayMetrics) :=
  (metricsGroups records).map (fun p => (p.1, metricsFinalize p.2))

/-- Association-list lookup on the group list (object property read). -/
def groupLookup : List (String × MetricsGroup) → String → Option MetricsGroup
  | [], _ => none
  | (k, g) :: rest, rg => if k = rg then some g else groupLookup rest rg

/-! ## OutlierDetectionCard mapping -/

/-- One record of the `/load/outliers` response. -/
structure LoadOutlier where
  hour_end : String
  region : String
  load_mw : ℚ
  mean : ℚ
  std_dev : ℚ
  z_score : ℚ
deriving DecidableEq, Repr

/-- One scatter point of `OutlierDetectionCard`. -/
structure ScatterDataPoint where
  time : String
  residual : ℚ
  region : String
deriving DecidableEq, Repr

/-- `regionToDisplayMap[outlier.region] || outlier.region`. -/
def outlierDisplayRegion (o : LoadOutlier) : String :=
  (regionToDisplayMapOutlier o.region).getD o.region

/-- The `apiData.map` body of `OutlierDetectionCard.fetchData` (the time
label comes from the external locale formatter `fmt`). -/
def outlierScatterData (fmt : String → String) (records : List LoadOutlier) :
    List ScatterDataPoint :=
  records.map (fun o =>
    { time := fmt o.hour_end, residual := o.load_mw - o.mean,
      region := outlierDisplayRegion o })

/-- `residualsFiltered` for one selected display region. -/
def outlierFiltered (fmt : String → String) (records : List LoadOutlier) (rg : String) :
    List ScatterDataPoint :=
  (outlierScatterData fmt records).filter (fun r => r.region = rg)

/-! ## Fetch orchestration: error and loading state -/

/-- The parts of a `fetch` `Response` the views read. -/
structure Response where
  status : ℕ
  statusText : String
deriving DecidableEq, Repr

/-- `response.ok`: status in the 2xx range. -/
def responseOk (r : Response) : Bool := 200 ≤ r.status && r.status < 300

/-- Per-view loading/error state after `fetchData` completes (the
`finally` block always clears `loading`). -/
structure FetchState where
  loading : Bool
  error : Option String
deriving DecidableEq, Repr

/-- Outcome state shared by the views that throw
``API error: ${response.status}`` on a non-ok response:
`DryVsRainyChart`, `HeatwavesByZoneChart`, `LoadByRegionChart`,
`MetricsCard`, `OutlierDetectionCard`. -/
def apiErrorFetchState (r : Response) : FetchState :=
  if responseOk r then { loading := false, error := none }
  else { loading := false, error := some ("API error: " ++ toString r.status) }

/-- Outcome state of `ExtremeHeatLoadTable.fetchData`, which throws
``Failed to fetch data: ${response.statusText}``. -/
def extremeHeatFetchState (r : Response) : FetchState :=
  if responseOk r then { loading := false, error := none }
  else { loading := false, error := some ("Failed to fetch data: " ++ r.statusText) }

/-- The claim notion "the message contains the numeric status code". -/
def containsStatus (msg : String) (status : ℕ) : Prop :=
  (toString status).toList <:+: msg.toList

instance (msg : String) (status : ℕ) : Decidable (containsStatus msg status) :=
  List.decidableInfix _ _

/-! ## Contribution counts (for stating the zero-guard property) -/

/-- A precipitation record contributes to region `rg`'s dry bucket. -/
def contributesDry (rg : String) (it : PrecipitationData) : Prop :=
  zoneToRegionMapDry it.zone = some rg ∧ it.rainy_day = false

/-- A precipitation record contributes to region `rg`'s rainy bucket. -/
def contributesRainy (rg : String) (it : PrecipitationData) : Prop :=
  zoneToRegionMapDry it.zone = some rg ∧ it.rainy_day = true

instance (rg : String) (it : PrecipitationData) : Decidable (contributesDry rg it) := by
  unfold contributesDry; infer_instance

instance (rg : String) (it : PrecipitationData) : Decidable (contributesRainy rg it) := by
  unfold contributesRainy; infer_instance

/-- Number of records contributing to region `rg`'s dry bucket. -/
def dryContribCount (records : List PrecipitationData) (rg : String) : ℕ :=
  (records.filter (fun it => decide (contributesDry rg it))).length

/-- Number of records contributing to region `rg`'s rainy bucket. -/
def rainyContribCount (records : List PrecipitationData) (rg : String) : ℕ :=
  (records.filter (fun it => decide (contributesRainy rg it))).length

/-- An entry of the extreme-heat `regionMap` with all three push arrays
non-empty. -/
def extremeHeatNonempty (e : String × ExtremeHeatLists) : Prop :=
  e.2.loads ≠ [] ∧ e.2.days ≠ [] ∧ e.2.temps ≠ []

/-! ## Shared helper lemmas -/

theorem zoneToRegionMapDry_mem (z rg : String) (h : zoneToRegionMapDry z = some rg) :
    rg = "North" ∨ rg = "South" ∨ rg = "West" ∨ rg = "Houston" := by
  unfold zoneToRegionMapDry at h
  split_ifs at h <;> simp_all

theorem dryRainStep_counts (acc : DryRainRegions) (it : PrecipitationData) :
    ((dryRainStep acc it).north.dryCount =
      acc.north.dryCount + if contributesDry "North" it then (1 : ℚ) else 0) ∧
    ((dryRainStep acc it).north.rainyCount =
      acc.north.rainyCount + if contributesRainy "North" it then (1 : ℚ) else 0) ∧
    ((dryRainStep acc it).south.dryCount =
      acc.south.dryCount + if contributesDry "South" it then (1 : ℚ) else 0) ∧
    ((dryRainStep acc it).south.rainyCount =
      acc.south.rainyCount + if contributesRainy "South" it then (1 : ℚ) else 0) ∧
    ((dryRainStep acc it).west.dryCount =
      acc.west.dryCount + if contributesDry "West" it then (1 : ℚ) else 0) ∧
    ((dryRainStep acc it).west.rainyCount =
      acc.west.rainyCount + if contributesRainy "West" it then (1 : ℚ) else 0) ∧
    ((dryRainStep acc it).houston.dryCount =
      acc.houston.dryCount + if contributesDry "Houston" it then (1 : ℚ) else 0) ∧
    ((dryRainStep acc it).houston.rainyCount =
      acc.houston.rainyCount + if contributesRainy "Houston" it then (1 : ℚ) else 0) := by
  rcases h : zoneToRegionMapDry it.zone with _ | rg
  · simp [dryRainStep, h, contributesDry, contributesRainy]
  · have hmem := zoneToRegionMapDry_mem it.zone rg h
    rcases it with ⟨z, rd, av, nd⟩
    cases rd <;> rcases hmem with h1 | h1 | h1 | h1 <;> subst h1 <;>
      simp_all [dryRainStep, dryRainUpdate, dryRainAdd, contributesDry, contributesRainy]

theorem foldl_count {α β : Type} (step : β → α → β) (f : β → ℚ) (p : α → Prop)
    [DecidablePred p]
    (hstep : ∀ acc it, f (step acc it) = f acc + if p it then (1 : ℚ) else 0) :
    ∀ (recs : List α) (acc : β),
      f (recs.foldl step acc) =
        f acc + ((recs.filter (fun it => decide (p it))).length : ℚ) := by
  intro recs
  induction recs with
  | nil => intro acc; simp
  | cons r rs ih =>
    intro acc
    simp only [List.foldl_cons]
    rw [ih (step acc r), hstep]
    by_cases hp : p r
    · simp only [hp, if_true]
      have hfil : List.filter (fun it => decide (p it)) (r :: rs) =
          r :: List.filter (fun it => decide (p it)) rs := by
        simp [List.filter_cons, hp]
      rw [hfil, List.length_cons]
      push_cast
      ring
    · have hfil : List.filter (fun it => decide (p it)) (r :: rs) =
          List.filter (fun it => decide (p it)) rs := by
        simp [List.filter_cons, hp]
      rw [hfil]
      simp [hp]

theorem mem_extremeHeatInsert_nonempty (al : List (String × ExtremeHeatLists))
    (rg : String) (item : ExtremeHeatData)
    (hal : ∀ e ∈ al, extremeHeatNonempty e) :
    ∀ e ∈ extremeHeatInsert al rg item, extremeHeatNonempty e := by
  induction al with
  | nil =>
    intro e he
    simp only [extremeHeatInsert, List.mem_singleton] at he
    subst he
    simp [extremeHeatNonempty]
  | cons hd tl ih =>
    obtain ⟨k, v⟩ := hd
    intro e he
    by_cases hk : k = rg
    · simp only [extremeHeatInsert, hk, if_true, List.mem_cons] at he
      rcases he with he | he
      · subst he; simp [extremeHeatNonempty]
      · exact hal e (List.mem_cons_of_mem _ he)
    · simp only [extremeHeatInsert, hk, if_false, List.mem_cons] at he
      rcases he with he | he
      · subst he; exact hal (k, v) (List.mem_cons_self _ _)
      · exact ih (fun x hx => hal x (List.mem_cons_of_mem _ hx)) e he

theorem mem_extremeHeatGroups_nonempty (records : List ExtremeHeatData) :
    ∀ e ∈ extremeHeatGroups records, extremeHeatNonempty e := by
  have general : ∀ (recs : List ExtremeHeatData) (acc : List (String × ExtremeHeatLists)),
      (∀ e ∈ acc, extremeHeatNonempty e) →
      ∀ e ∈ recs.foldl extremeHeatStep acc, extremeHeatNonempty e := by
    intro recs
    induction recs with
    | nil => intro acc h; simpa using h
    | cons r rs ih =>
      intro acc h
      simp only [List.foldl_cons]
      apply ih
      rcases hz : zoneToRegionMapExtremeHeat r.zone with _ | rg
      · simpa [extremeHeatStep, hz] using h
      · simp only [extremeHeatStep, hz]
        exact mem_extremeHeatInsert_nonempty acc rg r h
  exact general records [] (by simp)

theorem dry_eq_heatwaves_map (z : String) :
    zoneToRegionMapDry z = zoneToDisplayMapHeatwaves z := by
  unfold zoneToRegionMapDry zoneToDisplayMapHeatwaves
  split_ifs <;> simp_all

theorem dry_eq_extremeHeat_map (z : String) :
    zoneToRegionMapDry z = zoneToRegionMapExtremeHeat z := by
  unfold zoneToRegionMapDry zoneToRegionMapExtremeHeat
  split_ifs <;> simp_all

theorem dry_eq_metrics_map (z : String) :
    zoneToRegionMapDry z = regionToDisplayMapMetrics z := by
  unfold zoneToRegionMapDry regionToDisplayMapMetrics
  split_ifs <;> simp_all

theorem outlier_eq_dry_map (z : String) (hz : z ≠ "ercot") :
    regionToDisplayMapOutlier z = zoneToRegionMapDry z := by
  unfold regionToDisplayMapOutlier zoneToRegionMapDry
  split_ifs <;> simp_all

/-! ## Claim theorems -/

/-- C1 counterexample: on an empty record list `ExtremeHeatLoadTable`
does **not** produce four zero rows — its `regionMap` starts empty and
no entry is ever created, so the output has zero rows, not four. -/
theorem extremeHeat_empty_not_four_rows : (extremeHeatRows []).length ≠ 4 := by
  simp [extremeHeatRows, extremeHeatGroups]

/-- C1 (amended): for an empty input record list, `DryVsRainyChart` and
`HeatwavesByZoneChart` return exactly four rows keyed North, South,
West, Houston with zero-valued statistics, while `ExtremeHeatLoadTable`
and the time-series pipeline `LoadByRegionChart` both return zero
rows. -/
theorem empty_input_rows :
    dryVsRainyChartData [] =
      [⟨"North", 0, 0⟩, ⟨"South", 0, 0⟩, ⟨"West", 0, 0⟩, ⟨"Houston", 0, 0⟩] ∧
    heatwavesChartData [] =
      [⟨"North", 0⟩, ⟨"South", 0⟩, ⟨"West", 0⟩, ⟨"Houston", 0⟩] ∧
    extremeHeatRows [] = [] ∧
    ∀ fmt, loadByRegionChartData fmt [] = [] := by
  refine ⟨by decide, by decide, by simp [extremeHeatRows, extremeHeatGroups],
    fun fmt => by simp [loadByRegionChartData, sampleData]⟩

/-- C4 counterexample: the mapping tables do not all agree as functions —
`OutlierDetectionCard` maps the key `ercot` (to `All`) while
`DryVsRainyChart` has no such key. -/
theorem zone_maps_disagree_on_ercot :
    regionToDisplayMapOutlier "ercot" = some "All" ∧
    zoneToRegionMapDry "ercot" = none := by decide

/-- C4 (amended): the zone-to-display-region tables of `DryVsRainyChart`,
`HeatwavesByZoneChart`, `ExtremeHeatLoadTable` and `MetricsCard` agree as
functions on every input; `OutlierDetectionCard`'s table agrees with them
on every key except the extra key `ercot`, which it maps to `All`. -/
theorem zone_maps_agree (z : String) :
    zoneToRegionMapDry z = zoneToDisplayMapHeatwaves z ∧
    zoneToRegionMapDry z = zoneToRegionMapExtremeHeat z ∧
    zoneToRegionMapDry z = regionToDisplayMapMetrics z ∧
    (z ≠ "ercot" → regionToDisplayMapOutlier z = zoneToRegionMapDry z) ∧
    regionToDisplayMapOutlier "ercot" = some "All" := by
  exact ⟨dry_eq_heatwaves_map z, dry_eq_extremeHeat_map z, dry_eq_metrics_map z,
    outlier_eq_dry_map z, by decide⟩

/-- Witness for `zone_maps_agree` at `z = "north"`. -/
theorem zone_maps_agree_witness :
    ("north" ≠ "ercot") ∧ regionToDisplayMapOutlier "north" = zoneToRegionMapDry "north" :=
  ⟨by decide, (zone_maps_agree "north").2.2.2.1 (by decide)⟩

/-- C7: the filter store is seeded with committed and draft ranges both
`2010-06-01..2011-01-01`; `setTempDateRange` writes only the draft,
leaving the committed range unchanged (so commit is the only operation
that changes it), and `applyDateRange` copies the draft into the
committed range while leaving the draft unchanged. -/
theorem filter_store_spec :
    initFilterState.dateRange = ⟨"2010-06-01", "2011-01-01"⟩ ∧
    initFilterState.tempDateRange = ⟨"2010-06-01", "2011-01-01"⟩ ∧
    (∀ s r, (filterStep s (FilterOp.setTemp r)).dateRange = s.dateRange) ∧
    (∀ s r, (filterStep s (FilterOp.setTemp r)).tempDateRange = r) ∧
    (∀ s, (filterStep s FilterOp.apply).dateRange = s.tempDateRange) ∧
    (∀ s, (filterStep s FilterOp.apply).tempDateRange = s.tempDateRange) :=
  ⟨rfl, rfl, fun _ _ => rfl, fun _ _ => rfl, fun _ => rfl, fun _ => rfl⟩

/-- C6: for a committed range with non-empty start and end dates, the
hourly-load view serializes the range to day-boundary timestamps:
`start_date` is the start date suffixed with `T00:00:00` and `end_date`
is the end date suffixed with `T23:59:59`. -/
theorem hourly_load_params_spec (r : DateRange)
    (h1 : r.startDate ≠ "") (h2 : r.endDate ≠ "") :
    buildHourlyLoadParams r =
      [("start_date", r.startDate ++ "T00:00:00"),
       ("end_date", r.endDate ++ "T23:59:59")] := by
  simp [buildHourlyLoadParams, h1, h2]

/-- Witness for `hourly_load_params_spec` at the range
`2010-06-01..2010-06-02`. -/
theorem hourly_load_params_spec_witness :
    buildHourlyLoadParams ⟨"2010-06-01", "2010-06-02"⟩ =
      [("start_date", "2010-06-01T00:00:00"), ("end_date", "2010-06-02T23:59:59")] := by
  have h := hourly_load_params_spec ⟨"2010-06-01", "2010-06-02"⟩ (by decide) (by decide)
  simpa using h

/-- C10: `ExtremeHeatLoadChart`'s rendered series is independent of its
`dateRange` prop and is always the fixed five-point series Day 1..Day 5
with loads 3400, 3600, 3550, 3700, 3650. -/
theorem extreme_heat_chart_const :
    (∀ r1 r2 : DateRange, extremeHeatLoadChartData r1 = extremeHeatLoadChartData r2) ∧
    (∀ r : DateRange, extremeHeatLoadChartData r =
      [("Day 1", 3400), ("Day 2", 3600), ("Day 3", 3550), ("Day 4", 3700),
       ("Day 5", 3650)]) :=
  ⟨fun _ _ => rfl, fun _ => rfl⟩

/-- C3 counterexample: a 404 response to `ExtremeHeatLoadTable` yields
the error message `Failed to fetch data: Not Found`, which does not
contain the numeric status code `404`. -/
theorem extremeHeat_404_message_lacks_status :
    (extremeHeatFetchState ⟨404, "Not Found"⟩).loading = false ∧
    (extremeHeatFetchState ⟨404, "Not Found"⟩).error =
      some "Failed to fetch data: Not Found" ∧
    ¬ containsStatus "Failed to fetch data: Not Found" 404 := by decide

/-- C3 (amended): on any non-2xx response, every view clears its loading
flag and enters an error state; `DryVsRainyChart`, `HeatwavesByZoneChart`,
`LoadByRegionChart`, `MetricsCard` and `OutlierDetectionCard` produce the
message `API error: <status>`, which contains the numeric status code,
while `ExtremeHeatLoadTable` produces `Failed to fetch data:
<statusText>` instead; on a 2xx response the loading flag is cleared as
well. -/
theorem fetch_error_state_spec (r : Response) :
    (apiErrorFetchState r).loading = false ∧
    (extremeHeatFetchState r).loading = false ∧
    (responseOk r = false →
      (apiErrorFetchState r).error = some ("API error: " ++ toString r.status) ∧
      containsStatus ("API error: " ++ toString r.status) r.status ∧
      (extremeHeatFetchState r).error =
        some ("Failed to fetch data: " ++ r.statusText)) := by
  refine ⟨?_, ?_, fun h => ⟨?_, ?_, ?_⟩⟩
  · unfold apiErrorFetchState; split <;> rfl
  · unfold extremeHeatFetchState; split <;> rfl
  · simp [apiErrorFetchState, h]
  · unfold containsStatus
    have hsplit : ("API error: " ++ toString r.status).toList =
        ("API error: ").toList ++ (toString r.status).toList := by
      simp [String.toList]
    rw [hsplit]
    exact (List.suffix_append _ _).isInfix
  · simp [extremeHeatFetchState, h]

/-- Witness for `fetch_error_state_spec` at a concrete 500 response. -/
theorem fetch_error_state_spec_witness :
    responseOk ⟨500, "Internal Server Error"⟩ = false ∧
    (apiErrorFetchState ⟨500, "Internal Server Error"⟩).error =
      some "API error: 500" :=
  ⟨by decide, by
    have h := (fetch_error_state_spec ⟨500, "Internal Server Error"⟩).2.2 (by decide)
    simpa using h.1⟩

/-- C9: with `maxPoints = 100`, `sampleData` returns the list itself
when its length is at most 100; otherwise it returns exactly 100
elements, each an element of the input, taken at the indices
`i * length / 100`, which are non-decreasing in `i` and in bounds —
hence the hourly-load chart displays at most 100 points. -/
theorem sampleData_spec (data : List LoadPoint) :
    (sampleData data MAX_CHART_POINTS).length ≤ 100 ∧
    (data.length ≤ 100 → sampleData data MAX_CHART_POINTS = data) ∧
    (100 < data.length →
      sampleData data MAX_CHART_POINTS =
        (List.range 100).map (fun i => data.getD (i * data.length / 100) default) ∧
      (sampleData data MAX_CHART_POINTS).length = 100 ∧
      (∀ x ∈ sampleData data MAX_CHART_POINTS, x ∈ data) ∧
      (∀ i j, i ≤ j → i * data.length / 100 ≤ j * data.length / 100) ∧
      (∀ i, i < 100 → i * data.length / 100 < data.length)) := by
  have hmax : MAX_CHART_POINTS = 100 := rfl
  by_cases hle : data.length ≤ 100
  · refine ⟨?_, fun _ => ?_, fun hgt => absurd hle (not_le.2 hgt)⟩
    · simp [sampleData, hmax, hle]
    · simp [sampleData, hmax, hle]
  · have hgt : 100 < data.length := not_le.1 hle
    have hbound : ∀ i, i < 100 → i * data.length / 100 < data.length := by
      intro i hi
      have hlen : 0 < data.length := by omega
      have : i * data.length < data.length * 100 := by
        calc i * data.length < 100 * data.length :=
              (Nat.mul_lt_mul_right hlen).2 hi
          _ = data.length * 100 := Nat.mul_comm _ _
      exact (Nat.div_lt_iff_lt_mul (by norm_num)).2 this
    have heq : sampleData data MAX_CHART_POINTS =
        (List.range 100).map (fun i => data.getD (i * data.length / 100) default) := by
      simp [sampleData, hmax, hle]
    refine ⟨?_, fun h => absurd h (by omega), fun _ => ⟨heq, ?_, ?_, ?_, hbound⟩⟩
    · rw [heq]; simp
    · rw [heq]; simp
    · intro x hx
      rw [heq] at hx
      obtain ⟨i, hi, hxi⟩ := List.mem_map.1 hx
      have hi100 : i < 100 := List.mem_range.1 hi
      have hidx := hbound i hi100
      rw [List.getD_eq_getElem data default hidx] at hxi
      exact hxi ▸ List.getElem_mem hidx
    · intro i j hij
      exact Nat.div_le_div_right (Nat.mul_le_mul_right _ hij)

/-- Witness for `sampleData_spec` on a 101-element list. -/
theorem sampleData_spec_witness :
    100 < (List.replicate 101 (default : LoadPoint)).length ∧
    (sampleData (List.replicate 101 (default : LoadPoint)) MAX_CHART_POINTS).length = 100 :=
  ⟨by simp, ((sampleData_spec (List.replicate 101 default)).2.2 (by simp)).2.1⟩

/-- C5: the mean-type and weighted-mean-type finalizers are zero-guarded:
in `DryVsRainyChart`, a region whose dry (resp. rainy) contributing
record count is zero gets a 0 statistic; in `MetricsCard`, a group whose
total weight is zero finalizes to all-zero statistics; and in
`ExtremeHeatLoadTable` every populated region entry has non-empty push
arrays, so its unguarded divisions never divide by zero. -/
theorem zero_count_zero_stats (recsP : List PrecipitationData)
    (recsM : List ForecastMetrics) (recsE : List ExtremeHeatData) :
    (∀ row ∈ dryVsRainyChartData recsP,
      (dryContribCount recsP row.region = 0 → row.dry = 0) ∧
      (rainyContribCount recsP row.region = 0 → row.rainy = 0)) ∧
    (∀ p ∈ metricsGroups recsM, p.2.totalN = 0 →
      metricsFinalize p.2 = ⟨0, 0, 0, 0⟩) ∧
    (∀ e ∈ extremeHeatGroups recsE,
      e.2.loads ≠ [] ∧ e.2.days ≠ [] ∧ e.2.temps ≠ []) := by
  refine ⟨?_, ?_, mem_extremeHeatGroups_nonempty recsE⟩
  · have hND : (recsP.foldl dryRainStep initDryRainRegions).north.dryCount =
        (dryContribCount recsP "North" : ℚ) := by
      simpa [dryContribCount, initDryRainRegions, zeroDryRainAccum] using
        foldl_count dryRainStep (fun d => d.north.dryCount) (contributesDry "North")
          (fun acc it => (dryRainStep_counts acc it).1) recsP initDryRainRegions
    have hNR : (recsP.foldl dryRainStep initDryRainRegions).north.rainyCount =
        (rainyContribCount recsP "North" : ℚ) := by
      simpa [rainyContribCount, initDryRainRegions, zeroDryRainAccum] using
        foldl_count dryRainStep (fun d => d.north.rainyCount) (contributesRainy "North")
          (fun acc it => (dryRainStep_counts acc it).2.1) recsP initDryRainRegions
    have hSD : (recsP.foldl dryRainStep initDryRainRegions).south.dryCount =
        (dryContribCount recsP "South" : ℚ) := by
      simpa [dryContribCount, initDryRainRegions, zeroDryRainAccum] using
        foldl_count dryRainStep (fun d => d.south.dryCount) (contributesDry "South")
          (fun acc it => (dryRainStep_counts acc it).2.2.1) recsP initDryRainRegions
    have hSR : (recsP.foldl dryRainStep initDryRainRegions).south.rainyCount =
        (rainyContribCount recsP "South" : ℚ) := by
      simpa [rainyContribCount, initDryRainRegions, zeroDryRainAccum] using
        foldl_count dryRainStep (fun d => d.south.rainyCount) (contributesRainy "South")
          (fun acc it => (dryRainStep_counts acc it).2.2.2.1) recsP initDryRainRegions
    have hWD : (recsP.foldl dryRainStep initDryRainRegions).west.dryCount =
        (dryContribCount recsP "West" : ℚ) := by
      simpa [dryContribCount, initDryRainRegions, zeroDryRainAccum] using
        foldl_count dryRainStep (fun d => d.west.dryCount) (contributesDry "West")
          (fun acc it => (dryRainStep_counts acc it).2.2.2.2.1) recsP initDryRainRegions
    have hWR : (recsP.foldl dryRainStep initDryRainRegions).west.rainyCount =
        (rainyContribCount recsP "West" : ℚ) := by
      simpa [rainyContribCount, initDryRainRegions, zeroDryRainAccum] using
        foldl_count dryRainStep (fun d => d.west.rainyCount) (contributesRainy "West")
          (fun acc it => (dryRainStep_counts acc it).2.2.2.2.2.1) recsP initDryRainRegions
    have hHD : (recsP.foldl dryRainStep initDryRainRegions).houston.dryCount =
        (dryContribCount recsP "Houston" : ℚ) := by
      simpa [dryContribCount, initDryRainRegions, zeroDryRainAccum] using
        foldl_count dryRainStep (fun d => d.houston.dryCount) (contributesDry "Houston")
          (fun acc it => (dryRainStep_counts acc it).2.2.2.2.2.2.1) recsP
          initDryRainRegions
    have hHR : (recsP.foldl dryRainStep initDryRainRegions).houston.rainyCount =
        (rainyContribCount recsP "Houston" : ℚ) := by
      simpa [rainyContribCount, initDryRainRegions, zeroDryRainAccum] using
        foldl_count dryRainStep (fun d => d.houston.rainyCount)
          (contributesRainy "Houston")
          (fun acc it => (dryRainStep_counts acc it).2.2.2.2.2.2.2) recsP
          initDryRainRegions
    intro row hrow
    simp only [dryVsRainyChartData, List.mem_cons, List.not_mem_nil, or_false] at hrow
    rcases hrow with hrow | hrow | hrow | hrow <;> subst hrow <;>
      simp only [dryRainFinalize] <;> refine ⟨fun h0 => ?_, fun h0 => ?_⟩
    · rw [hND, h0]; simp
    · rw [hNR, h0]; simp
    · rw [hSD, h0]; simp
    · rw [hSR, h0]; simp
    · rw [hWD, h0]; simp
    · rw [hWR, h0]; simp
    · rw [hHD, h0]; simp
    · rw [hHR, h0]; simp
  · intro p _ h0
    simp [metricsFinalize, h0]

/-- Witness for `zero_count_zero_stats`: a single southern record leaves
the North row's contributing counts at zero and its statistics at 0. -/
theorem zero_count_zero_stats_witness :
    (⟨"North", 0, 0⟩ : DryRainPoint) ∈
      dryVsRainyChartData [⟨"southern", false, 100, 1⟩] ∧
    dryContribCount [⟨"southern", false, 100, 1⟩] "North" = 0 ∧
    (⟨"North", (0 : ℚ), 0⟩ : DryRainPoint).dry = 0 :=
  ⟨by decide, by decide,
    ((zero_count_zero_stats [⟨"southern", false, 100, 1⟩] [] []).1
      ⟨"North", 0, 0⟩ (by decide)).1 (by decide)⟩

theorem groupLookup_metricsInsert (al : List (String × MetricsGroup))
    (m : ForecastMetrics) (rg : String) :
    groupLookup (metricsInsert al m) rg =
      if metricsDisplayRegion m = rg then
        some (metricsAdd ((groupLookup al rg).getD zeroMetricsGroup) m)
      else groupLookup al rg := by
  induction al with
  | nil =>
    by_cases hd : metricsDisplayRegion m = rg <;>
      simp [metricsInsert, groupLookup, hd]
  | cons hd tl ih =>
    obtain ⟨k, g⟩ := hd
    by_cases hk : k = metricsDisplayRegion m <;>
      by_cases hr : metricsDisplayRegion m = rg <;>
      simp_all [metricsInsert, groupLookup]

theorem groupLookup_foldl_congr (post : List ForecastMetrics) :
    ∀ (al al2 : List (String × MetricsGroup)) (rg : String),
      groupLookup al rg = groupLookup al2 rg →
      groupLookup (post.foldl metricsInsert al) rg =
        groupLookup (post.foldl metricsInsert al2) rg := by
  induction post with
  | nil => intro al al2 rg h; simpa using h
  | cons m ms ih =>
    intro al al2 rg h
    simp only [List.foldl_cons]
    apply ih
    rw [groupLookup_metricsInsert, groupLookup_metricsInsert, h]

/-- C2 counterexample: `MetricsCard` does **not** exclude records with
unmapped identifiers — `"North"` is not a key of its mapping table, yet
a record carrying it changes the `North` group (via the `|| raw` display
fallback), so the North output row is not unchanged. -/
theorem unmapped_record_changes_output :
    regionToDisplayMapMetrics "North" = none ∧
    groupLookup (metricsGroups [⟨"North", 1, 5, 5, 5, 1⟩]) "North" ≠
      groupLookup (metricsGroups ([] : List ForecastMetrics)) "North" ∧
    metricsDisplay [⟨"North", 1, 5, 5, 5, 1⟩] ≠
      metricsDisplay ([] : List ForecastMetrics) := by decide

/-- C2 (amended): `DryVsRainyChart` excludes records with unmapped zone
identifiers from every region's accumulator (its output is unchanged by
inserting them anywhere); `MetricsCard` and `OutlierDetectionCard`
instead fall back to the raw identifier as the display region, so their
per-region outputs are unchanged by such an insertion only for regions
whose name differs from the raw identifier. -/
theorem unmapped_zone_effects :
    (∀ (pre post : List PrecipitationData) (rec : PrecipitationData),
      zoneToRegionMapDry rec.zone = none →
      dryVsRainyChartData (pre ++ rec :: post) = dryVsRainyChartData (pre ++ post)) ∧
    (∀ rec : ForecastMetrics, regionToDisplayMapMetrics rec.region = none →
      metricsDisplayRegion rec = rec.region) ∧
    (∀ (pre post : List ForecastMetrics) (rec : ForecastMetrics) (rg : String),
      regionToDisplayMapMetrics rec.region = none → rec.region ≠ rg →
      groupLookup (metricsGroups (pre ++ rec :: post)) rg =
        groupLookup (metricsGroups (pre ++ post)) rg) ∧
    (∀ o : LoadOutlier, regionToDisplayMapOutlier o.region = none →
      outlierDisplayRegion o = o.region) ∧
    (∀ (fmt : String → String) (pre post : List LoadOutlier) (o : LoadOutlier)
      (rg : String), regionToDisplayMapOutlier o.region = none → o.region ≠ rg →
      outlierFiltered fmt (pre ++ o :: post) rg = outlierFiltered fmt (pre ++ post) rg) := by
  refine ⟨?_, ?_, ?_, ?_, ?_⟩
  · intro pre post rec h
    have hfold : (pre ++ rec :: post).foldl dryRainStep initDryRainRegions =
        (pre ++ post).foldl dryRainStep initDryRainRegions := by
      simp only [List.foldl_append, List.foldl_cons]
      congr 1
      simp [dryRainStep, h]
    simp only [dryVsRainyChartData]
    rw [hfold]
  · intro rec h
    simp [metricsDisplayRegion, h]
  · intro pre post rec rg h hne
    have hd : metricsDisplayRegion rec ≠ rg := by
      simpa [metricsDisplayRegion, h] using hne
    simp only [metricsGroups, List.foldl_append, List.foldl_cons]
    apply groupLookup_foldl_congr
    rw [groupLookup_metricsInsert]
    simp [hd]
  · intro o h
    simp [outlierDisplayRegion, h]
  · intro fmt pre post o rg h hne
    have hd : outlierDisplayRegion o ≠ rg := by
      simpa [outlierDisplayRegion, h] using hne
    simp [outlierFiltered, outlierScatterData, List.filter_append, List.filter_cons, hd]

/-- Witness for `unmapped_zone_effects`: a record with the unknown zone
`garbage` leaves the `DryVsRainyChart` output unchanged. -/
theorem unmapped_zone_effects_witness :
    zoneToRegionMapDry "garbage" = none ∧
    dryVsRainyChartData [⟨"garbage", false, 50, 1⟩] = dryVsRainyChartData [] :=
  ⟨by decide,
    unmapped_zone_effects.1 [] [] ⟨"garbage", false, 50, 1⟩ (by decide)⟩

/-! ## Characterizing the metrics groups (for the weighted-mean claim) -/

/-- The records of the input that land in display region `rg`. -/
def metricsMatching (recs : List ForecastMetrics) (rg : String) : List ForecastMetrics :=
  recs.filter (fun m => decide (metricsDisplayRegion m = rg))

/-- The group a list of records folds to: total weight and weighted
sums. -/
def metricsGroupOf (l : List ForecastMetrics) : MetricsGroup :=
  { totalN := (l.map (fun m => m.n)).sum,
    weightedMse := (l.map (fun m => m.mse * m.n)).sum,
    weightedMae := (l.map (fun m => m.mae * m.n)).sum,
    weightedMape := (l.map (fun m => m.mape_pct * m.n)).sum,
    weightedR2 := (l.map (fun m => m.r2 * m.n)).sum }

theorem groupLookup_metricsGroups (recs : List ForecastMetrics) (rg : String) :
    groupLookup (metricsGroups recs) rg =
      if metricsMatching recs rg = [] then none
      else some (metricsGroupOf (metricsMatching recs rg)) := by
  induction recs using List.reverseRecOn with
  | nil => simp [metricsGroups, groupLookup, metricsMatching]
  | append_singleton l m ih =>
    have hgroups : metricsGroups (l ++ [m]) = metricsInsert (metricsGroups l) m := by
      simp [metricsGroups, List.foldl_append]
    have hmatch : metricsMatching (l ++ [m]) rg =
        metricsMatching l rg ++ if metricsDisplayRegion m = rg then [m] else [] := by
      by_cases hd : metricsDisplayRegion m = rg <;>
        simp [metricsMatching, List.filter_append, List.filter_cons, hd]
    rw [hgroups, groupLookup_metricsInsert, ih, hmatch]
    by_cases hd : metricsDisplayRegion m = rg
    · simp only [hd, if_true]
      by_cases hml : metricsMatching l rg = []
      · simp [hml, metricsGroupOf, metricsAdd, zeroMetricsGroup]
      · simp [hml, metricsGroupOf, metricsAdd]
    · simp [hd]

theorem keys_metricsInsert (al : List (String × MetricsGroup)) (m : ForecastMetrics) :
    (metricsInsert al m).map Prod.fst =
      if metricsDisplayRegion m ∈ al.map Prod.fst then al.map Prod.fst
      else al.map Prod.fst ++ [metricsDisplayRegion m] := by
  induction al with
  | nil => simp [metricsInsert]
  | cons hd tl ih =>
    obtain ⟨k, g⟩ := hd
    by_cases hk : k = metricsDisplayRegion m
    · simp_all [metricsInsert]
    · by_cases hmem : metricsDisplayRegion m ∈ tl.map Prod.fst <;>
        simp_all [metricsInsert, eq_comm]

theorem nodup_keys_metricsGroups (recs : List ForecastMetrics) :
    ((metricsGroups recs).map Prod.fst).Nodup := by
  have general : ∀ (rs : List ForecastMetrics) (al : List (String × MetricsGroup)),
      (al.map Prod.fst).Nodup → ((rs.foldl metricsInsert al).map Prod.fst).Nodup := by
    intro rs
    induction rs with
    | nil => intro al h; simpa using h
    | cons m ms ih =>
      intro al h
      simp only [List.foldl_cons]
      apply ih
      rw [keys_metricsInsert]
      by_cases hmem : metricsDisplayRegion m ∈ al.map Prod.fst
      · simpa [hmem] using h
      · simp [hmem, List.nodup_append, h]
  exact general recs [] (by simp)

theorem groupLookup_eq_of_mem (al : List (String × MetricsGroup))
    (hnd : (al.map Prod.fst).Nodup) (p : String × MetricsGroup) (hp : p ∈ al) :
    groupLookup al p.1 = some p.2 := by
  induction al with
  | nil => cases hp
  | cons hd tl ih =>
    obtain ⟨k, g⟩ := hd
    rcases List.mem_cons.1 hp with hp | hp
    · subst hp; simp [groupLookup]
    · have hk : k ≠ p.1 := by
        intro hkp
        have : p.1 ∈ tl.map Prod.fst := List.mem_map_of_mem Prod.fst hp
        rw [List.map_cons, List.nodup_cons] at hnd
        exact hnd.1 (hkp ▸ this)
      rw [List.map_cons, List.nodup_cons] at hnd
      simp only [groupLookup, if_neg hk]
      exact ih hnd.2 hp

theorem sum_map_n_eq_length (l : List ForecastMetrics) (h : ∀ m ∈ l, m.n = 1) :
    (l.map (fun m => m.n)).sum = (l.length : ℚ) := by
  induction l with
  | nil => simp
  | cons a t ih =>
    simp only [List.map_cons, List.sum_cons, List.length_cons,
      h a (List.mem_cons_self a t), ih (fun m hm => h m (List.mem_cons_of_mem a hm))]
    push_cast
    ring

theorem sum_map_weight_one (f : ForecastMetrics → ℚ) (l : List ForecastMetrics)
    (h : ∀ m ∈ l, m.n = 1) :
    (l.map (fun m => f m * m.n)).sum = (l.map f).sum := by
  induction l with
  | nil => simp
  | cons a t ih =>
    simp only [List.map_cons, List.sum_cons,
      h a (List.mem_cons_self a t), ih (fun m hm => h m (List.mem_cons_of_mem a hm)),
      mul_one]

/-- C8: if every record's weight `n` equals 1, the weighted-mean
statistics `MetricsCard` computes for each display region equal the
simple arithmetic means of the corresponding metrics over the region's
records. -/
theorem metrics_unit_weights (recs : List ForecastMetrics)
    (hw : ∀ m ∈ recs, m.n = 1) :
    ∀ p ∈ metricsDisplay recs,
      metricsMatching recs p.1 ≠ [] ∧
      p.2.mse = ((metricsMatching recs p.1).map (fun m => m.mse)).sum /
        ((metricsMatching recs p.1).length : ℚ) ∧
      p.2.mae = ((metricsMatching recs p.1).map (fun m => m.mae)).sum /
        ((metricsMatching recs p.1).length : ℚ) ∧
      p.2.mape = ((metricsMatching recs p.1).map (fun m => m.mape_pct)).sum /
        ((metricsMatching recs p.1).length : ℚ) ∧
      p.2.r2 = ((metricsMatching recs p.1).map (fun m => m.r2)).sum /
        ((metricsMatching recs p.1).length : ℚ) := by
  intro p hp
  obtain ⟨q, hq, hpq⟩ := List.mem_map.1 hp
  have hlk : groupLookup (metricsGroups recs) q.1 = some q.2 :=
    groupLookup_eq_of_mem _ (nodup_keys_metricsGroups recs) q hq
  rw [groupLookup_metricsGroups] at hlk
  by_cases hml : metricsMatching recs q.1 = []
  · rw [if_pos hml] at hlk; cases hlk
  · rw [if_neg hml] at hlk
    have hq2 : q.2 = metricsGroupOf (metricsMatching recs q.1) := (Option.some.inj hlk).symm
    have hp1 : p.1 = q.1 := by rw [← hpq]
    have hp2 : p.2 = metricsFinalize q.2 := by rw [← hpq]
    have hsub : ∀ m ∈ metricsMatching recs q.1, m.n = 1 := fun m hm =>
      hw m (List.mem_of_mem_filter hm)
    have hN : (metricsGroupOf (metricsMatching recs q.1)).totalN =
        ((metricsMatching recs q.1).length : ℚ) := by
      simpa [metricsGroupOf] using sum_map_n_eq_length _ hsub
    have hpos : (0 : ℚ) < ((metricsMatching recs q.1).length : ℚ) := by
      exact_mod_cast List.length_pos.2 hml
    have key : metricsFinalize (metricsGroupOf (metricsMatching recs q.1)) =
        { mape := ((metricsMatching recs q.1).map (fun m => m.mape_pct)).sum /
            ((metricsMatching recs q.1).length : ℚ),
          r2 := ((metricsMatching recs q.1).map (fun m => m.r2)).sum /
            ((metricsMatching recs q.1).length : ℚ),
          mse := ((metricsMatching recs q.1).map (fun m => m.mse)).sum /
            ((metricsMatching recs q.1).length : ℚ),
          mae := ((metricsMatching recs q.1).map (fun m => m.mae)).sum /
            ((metricsMatching recs q.1).length : ℚ) } := by
      simp only [metricsFinalize, metricsGroupOf]
      rw [sum_map_n_eq_length _ hsub, if_pos hpos, if_pos hpos, if_pos hpos,
        if_pos hpos,
        sum_map_weight_one (fun m => m.mse) _ hsub,
        sum_map_weight_one (fun m => m.mae) _ hsub,
        sum_map_weight_one (fun m => m.mape_pct) _ hsub,
        sum_map_weight_one (fun m => m.r2) _ hsub]
    refine ⟨by rw [hp1]; exact hml, ?_, ?_, ?_, ?_⟩ <;> rw [hp1, hp2, hq2, key]

/-- Witness for `metrics_unit_weights` on two unit-weight north-zone
records. -/
theorem metrics_unit_weights_witness :
    (∀ m ∈ ([⟨"north", 1, 2, 3, 4, 5⟩, ⟨"north_c", 1, 4, 5, 6, 7⟩] :
        List ForecastMetrics), m.n = 1) ∧
    (("North", ⟨5, 6, 3, 4⟩) : String × DisplayMetrics) ∈
      metricsDisplay [⟨"north", 1, 2, 3, 4, 5⟩, ⟨"north_c", 1, 4, 5, 6, 7⟩] ∧
    (5 : ℚ) = ((metricsMatching
        [⟨"north", 1, 2, 3, 4, 5⟩, ⟨"north_c", 1, 4, 5, 6, 7⟩] "North").map
          (fun m => m.mape_pct)).sum /
      ((metricsMatching
        [⟨"north", 1, 2, 3, 4, 5⟩, ⟨"north_c", 1, 4, 5, 6, 7⟩] "North").length : ℚ) := by
  have hdisp : metricsDisplay [⟨"north", 1, 2, 3, 4, 5⟩, ⟨"north_c", 1, 4, 5, 6, 7⟩] =
      [("North", ⟨5, 6, 3, 4⟩)] := by
    have hdr1 : metricsDisplayRegion ⟨"north", 1, 2, 3, 4, 5⟩ = "North" := by decide
    have hdr2 : metricsDisplayRegion ⟨"north_c", 1, 4, 5, 6, 7⟩ = "North" := by decide
    simp only [metricsDisplay, metricsGroups, List.foldl_cons, List.foldl_nil,
      metricsInsert, hdr1, hdr2, metricsAdd, zeroMetricsGroup, metricsFinalize,
      List.map_cons, List.map_nil, if_true]
    norm_num
  have hmem : (("North", ⟨5, 6, 3, 4⟩) : String × DisplayMetrics) ∈
      metricsDisplay [⟨"north", 1, 2, 3, 4, 5⟩, ⟨"north_c", 1, 4, 5, 6, 7⟩] := by
    rw [hdisp]; exact List.mem_cons_self _ _
  exact ⟨by decide, hmem,
    (metrics_unit_weights _ (by decide) ("North", ⟨5, 6, 3, 4⟩) hmem).2.2.2.1⟩

end TexasEnergy
